import Mathlib

/-!
Verification of the Gem-Assist repository's specified behaviour:
the environment configuration (`src/.../config/env.ts`), the chat widget
(`src/static/ai_script.js`), the sign-in callback page
(`src/gem-control-center/src/pages/SigninCallback.tsx`) and the Viewer page
(`src/gem-control-center/src/pages/Viewer.tsx`), shallowly embedded in Lean.
-/

namespace GemAssist

/-! ## Environment configuration (config/env.ts)

`import.meta.env` is modelled as a partial map from variable names to string
values; an unset variable is `none`. -/

/-- The shape of `AppEnv` from `config/env.ts`. -/
structure AppEnv where
  itwinClientId : String
  redirectUri : String
  postSignoutRedirectUri : String
  scope : String
  authority : String
  demoITwinId : Option String
  demoIModelId : Option String
  marketingBaseUrl : String
  deriving Repr, DecidableEq

/-- `requireEnv` from `config/env.ts`: reads `import.meta.env[name]` and throws
`Missing required env var: <name>` when the value is falsy — i.e. `undefined`
(modelled as `none`) or the empty string. -/
def requireEnv (lookup : String → Option String) (name : String) : Except String String :=
  match lookup name with
  | none => .error ("Missing required env var: " ++ name)
  | some v => if v = "" then .error ("Missing required env var: " ++ name) else .ok v

/-- Construction of the exported `env : AppEnv` object from `config/env.ts`.
Fields are evaluated in source order, so the first failing `requireEnv` call
determines the thrown error; the optional fields use `??` defaults. -/
def mkEnv (lookup : String → Option String) : Except String AppEnv := do
  let itwinClientId ← requireEnv lookup "VITE_ITWIN_CLIENT_ID"
  let redirectUri ← requireEnv lookup "VITE_ITWIN_REDIRECT_URI"
  let postSignoutRedirectUri ← requireEnv lookup "VITE_ITWIN_POST_SIGNOUT_REDIRECT_URI"
  pure {
    itwinClientId := itwinClientId
    redirectUri := redirectUri
    postSignoutRedirectUri := postSignoutRedirectUri
    scope := (lookup "VITE_ITWIN_SCOPE").getD "itwin-platform"
    authority := (lookup "VITE_ITWIN_AUTHORITY").getD "https://ims.bentley.com"
    demoITwinId := lookup "VITE_DEMO_ITWIN_ID"
    demoIModelId := lookup "VITE_DEMO_IMODEL_ID"
    marketingBaseUrl := (lookup "VITE_MARKETING_BASE_URL").getD "/" }

/-- The required environment keys, in the order `env` reads them. -/
def requiredKeys : List String :=
  ["VITE_ITWIN_CLIENT_ID", "VITE_ITWIN_REDIRECT_URI",
   "VITE_ITWIN_POST_SIGNOUT_REDIRECT_URI"]

/-- A variable is truthy when it is set to a non-empty string
(JavaScript `!v` is false exactly then). -/
def truthy : Option String → Bool
  | none => false
  | some v => v ≠ ""

/-! Concrete environments used to instantiate the theorems. -/

/-- All required keys set non-empty; optional scope and authority also set. -/
def lookupFull : String → Option String := fun k =>
  if k = "VITE_ITWIN_CLIENT_ID" then some "client-123"
  else if k = "VITE_ITWIN_REDIRECT_URI" then some "https://app.example/signin-callback"
  else if k = "VITE_ITWIN_POST_SIGNOUT_REDIRECT_URI" then some "https://app.example/"
  else if k = "VITE_ITWIN_SCOPE" then some "custom-scope"
  else if k = "VITE_ITWIN_AUTHORITY" then some "https://auth.example"
  else none

/-- Only the required keys set; every optional key absent. -/
def lookupRequiredOnly : String → Option String := fun k =>
  if k = "VITE_ITWIN_CLIENT_ID" then some "client-123"
  else if k = "VITE_ITWIN_REDIRECT_URI" then some "https://app.example/signin-callback"
  else if k = "VITE_ITWIN_POST_SIGNOUT_REDIRECT_URI" then some "https://app.example/"
  else none

/-- The redirect URI is unset; the other required keys are set non-empty. -/
def lookupMissingRedirect : String → Option String := fun k =>
  if k = "VITE_ITWIN_CLIENT_ID" then some "client-123"
  else if k = "VITE_ITWIN_POST_SIGNOUT_REDIRECT_URI" then some "https://app.example/"
  else none

/-- The client ID is set to the empty string; the other required keys are set
non-empty, so every required key is present. -/
def lookupEmptyClient : String → Option String := fun k =>
  if k = "VITE_ITWIN_CLIENT_ID" then some ""
  else if k = "VITE_ITWIN_REDIRECT_URI" then some "https://app.example/signin-callback"
  else if k = "VITE_ITWIN_POST_SIGNOUT_REDIRECT_URI" then some "https://app.example/"
  else none

/-- Both the client ID and the redirect URI are unset; only the post-signout
URI is set. -/
def lookupMissingTwo : String → Option String := fun k =>
  if k = "VITE_ITWIN_POST_SIGNOUT_REDIRECT_URI" then some "https://app.example/" else none

/-- Both the client ID and the redirect URI are set to the empty string; the
post-signout URI is set non-empty. -/
def lookupTwoEmpty : String → Option String := fun k =>
  if k = "VITE_ITWIN_CLIENT_ID" then some ""
  else if k = "VITE_ITWIN_REDIRECT_URI" then some ""
  else if k = "VITE_ITWIN_POST_SIGNOUT_REDIRECT_URI" then some "https://app.example/"
  else none

/-! ## Chat widget (static/ai_script.js)

The DOM state the script touches, and `sendMessage` as a function of the
outcome of the awaited `fetch`/`response.json()` pair. -/

/-- One `<p>` element appended to the chatbox by `appendMessage`. -/
structure ChatMessage where
  sender : String
  text : String
  msgType : String
  deriving Repr, DecidableEq

/-- Single-character global replacement, the semantics of JavaScript
`str.replace(/c/g, r)` for a one-character pattern `c`. -/
def replaceAllChar (c : Char) (r : List Char) : List Char → List Char
  | [] => []
  | x :: xs => (if x = c then r else [x]) ++ replaceAllChar c r xs

/-- `escapeHtml` from `ai_script.js`: replace every `&` by `&amp;`, then every
`<` by `&lt;`, then every `>` by `&gt;`. -/
def escapeHtml (l : List Char) : List Char :=
  replaceAllChar '>' "&gt;".data
    (replaceAllChar '<' "&lt;".data
      (replaceAllChar '&' "&amp;".data l))

/-- `escapeHtml` on `String`s. -/
def escapeHtmlS (s : String) : String := String.mk (escapeHtml s.data)

/-- The per-character escaping map; `escapeHtml` is proved equal to mapping
this over the input (the spec's \x7bevery `&`/`<`/`>` is replaced\x7d reading). -/
def escChar (c : Char) : List Char :=
  if c = '&' then "&amp;".data
  else if c = '<' then "&lt;".data
  else if c = '>' then "&gt;".data
  else [c]

/-- Single-pass escaping: `escChar` applied to every character in order. -/
def escAll : List Char → List Char
  | [] => []
  | x :: xs => escChar x ++ escAll xs

/-- The `innerHTML` that `appendMessage` assigns to the new `<p>`:
`"<b>" + sender + ":</b> " + escapeHtml(text)`. -/
def messageHtml (m : ChatMessage) : String :=
  "<b>" ++ m.sender ++ ":</b> " ++ escapeHtmlS m.text

/-- The text content a browser displays for `messageHtml m`: the `<b>` tag
contributes `sender ++ ":"`, and the escaped entities decode back to the raw
text (`htmlTextContent` below computes this from the markup). -/
def displayedText (m : ChatMessage) : String := m.sender ++ ": " ++ m.text

/-- Text content of a flat piece of markup: drop `<...>` tags, decode the
entities `&amp;`, `&lt;`, `&gt;`. Used to relate `messageHtml` to
`displayedText`. -/
def htmlTextContent : List Char → List Char
  | [] => []
  | c :: rest =>
    if c = '<' then htmlTextContent ((rest.dropWhile (fun x => x ≠ '>')).tail)
    else if c = '&' then
      match rest with
      | 'a' :: 'm' :: 'p' :: ';' :: t => '&' :: htmlTextContent t
      | 'l' :: 't' :: ';' :: t => '<' :: htmlTextContent t
      | 'g' :: 't' :: ';' :: t => '>' :: htmlTextContent t
      | r => c :: htmlTextContent r
    else c :: htmlTextContent rest
termination_by l => l.length
decreasing_by
  all_goals simp_wf
  all_goals try omega
  have h := (List.dropWhile_sublist (l := xs) (fun x => !decide (x = '>'))).length_le
  omega

/-- JavaScript `String.prototype.trim()`: remove leading and trailing
whitespace. Implemented structurally (drop whitespace from the front, then
from the reversed back) so that it evaluates by kernel reduction. -/
def jsTrim (s : String) : String :=
  String.mk (((s.data.dropWhile Char.isWhitespace).reverse.dropWhile Char.isWhitespace).reverse)

/-- The DOM state `sendMessage` reads and writes: the input field's value, the
chatbox's children, and the send button's `disabled`/label state.
`fetchesIssued` counts the `fetch` calls made so far. -/
structure ChatState where
  inputValue : String
  chatbox : List ChatMessage
  sendDisabled : Bool
  sendLabel : String
  fetchesIssued : Nat
  deriving Repr, DecidableEq

/-- Outcome of `await fetch(...)` followed by `await response.json()`:
either a parsed body whose `reply` field is a string, or a rejection of
either promise. -/
inductive FetchOutcome where
  | success (reply : String)
  | rejected
  deriving Repr, DecidableEq

/-- `appendMessage` from `ai_script.js`: creates a `<p>` and appends it to the
chatbox (the scroll update has no observable effect on this state). -/
def appendMessage (sender text ty : String) (box : List ChatMessage) : List ChatMessage :=
  box ++ [ChatMessage.mk sender text ty]

/-- The fallback assistant reply used when the fetch rejects. -/
def fallbackReply : String := "Sorry, something went wrong while contacting the assistant."

/-- `sendMessage` from `ai_script.js`, with the awaited fetch outcome passed
in: trimmed-empty input returns immediately; otherwise the user message is
appended, the input cleared, the button disabled and relabelled, the fetch
issued, the assistant message (reply or fallback) appended, and the `finally`
block re-enables the button and restores its label. -/
def sendMessage (outcome : FetchOutcome) (s : ChatState) : ChatState :=
  let text := jsTrim s.inputValue
  if text = "" then s
  else
    let s1 : ChatState :=
      { s with chatbox := appendMessage "You" text "user" s.chatbox }
    let s2 : ChatState :=
      { s1 with inputValue := "", sendDisabled := true, sendLabel := "Sending..." }
    let s3 : ChatState := { s2 with fetchesIssued := s2.fetchesIssued + 1 }
    let s4 : ChatState :=
      match outcome with
      | .success reply =>
          { s3 with chatbox := appendMessage "AI" reply "ai" s3.chatbox }
      | .rejected =>
          { s3 with chatbox := appendMessage "AI" fallbackReply "ai" s3.chatbox }
    { s4 with sendDisabled := false, sendLabel := "Send" }

/-! ## Sign-in callback page (pages/SigninCallback.tsx) -/

/-- A JavaScript `Error` as observed by the callback page: only its
`message` is used. -/
structure JsError where
  message : String
  deriving Repr, DecidableEq

/-- The observable state of the `SigninCallback` component: the rendered
message text, and the navigation target if `nav` was called. -/
structure CallbackPageState where
  msg : String
  navigated : Option String
  deriving Repr, DecidableEq

/-- State at mount: `useState("Signing you in…")`, no navigation yet. -/
def initialCallbackState : CallbackPageState :=
  { msg := "Signing you in…", navigated := none }

/-- The effect run once on mount: `await handleSigninCallback()` (its outcome
passed in, since the auth wrapper is an opaque third-party call), then
`nav("/app/viewer")` on success or `setMsg` of the error text on failure. -/
def runSigninCallback (result : Except JsError Unit)
    (s : CallbackPageState) : CallbackPageState :=
  match result with
  | .ok _ => { s with navigated := some "/app/viewer" }
  | .error e => { s with msg := "Sign-in failed: " ++ e.message }

/-! ## Viewer page (pages/Viewer.tsx) -/

/-- The `Hotspot` record from `Viewer.tsx`. -/
structure Hotspot where
  id : String
  title : String
  description : String
  ctaLabel : String
  ctaPath : String
  deriving Repr, DecidableEq

/-- First element of `DEFAULT_HOTSPOTS`. -/
def receptionHotspot : Hotspot :=
  { id := "reception", title := "Reception"
    description := "Book a demo or request enterprise security services."
    ctaLabel := "Contact Us", ctaPath := "/contact-us" }

/-- Second element of `DEFAULT_HOTSPOTS`. -/
def showroomHotspot : Hotspot :=
  { id := "showroom", title := "Showroom"
    description := "Explore services and offerings tied to model locations."
    ctaLabel := "View Services", ctaPath := "/services" }

/-- `DEFAULT_HOTSPOTS` from `Viewer.tsx`. -/
def DEFAULT_HOTSPOTS : List Hotspot := [receptionHotspot, showroomHotspot]

/-- JavaScript `base.replace(/\/+$/, "")`: remove every trailing `/`. -/
def dropTrailingSlashes (l : List Char) : List Char :=
  (l.reverse.dropWhile (fun c => c = '/')).reverse

/-- `dropTrailingSlashes` on `String`s. -/
def stripTrailingSlashesS (s : String) : String := String.mk (dropTrailingSlashes s.data)

/-- JavaScript `path.startsWith("/")`, written structurally on the character
list so that it evaluates by kernel reduction. -/
def startsWithSlash (s : String) : Bool :=
  match s.data with
  | [] => false
  | c :: _ => c = '/'

/-- `marketingUrl` from `Viewer.tsx`: trailing slashes stripped from the base,
then the path appended, with a `/` inserted when the path lacks one. -/
def marketingUrl (marketingBaseUrl : String) (path : String) : String :=
  let base := stripTrailingSlashesS marketingBaseUrl
  base ++ (if startsWithSlash path then path else "/" ++ path)

/-- The Viewer's only piece of state: `useState<Hotspot | null>` initialised
to the first hotspot. -/
structure ViewerState where
  selected : Option Hotspot
  deriving Repr, DecidableEq

/-- Viewer state on mount. -/
def initialViewerState : ViewerState := { selected := some receptionHotspot }

/-- The `onClick` handler of a hotspot button: `setSelected(h)`. -/
def clickHotspot (h : Hotspot) (_s : ViewerState) : ViewerState := { selected := some h }

/-- What the details panel shows for a selected hotspot. -/
structure ViewerDetails where
  title : String
  description : String
  ctaLabel : String
  href : String
  deriving Repr, DecidableEq

/-- The details `<aside>` of `Viewer.tsx`: `none` renders the
"Select a hotspot." placeholder, otherwise the hotspot's title, description
and CTA link with `href = marketingUrl(selected.ctaPath)`. -/
def renderDetails (marketingBaseUrl : String) (s : ViewerState) : Option ViewerDetails :=
  s.selected.map fun h =>
    { title := h.title, description := h.description
      ctaLabel := h.ctaLabel, href := marketingUrl marketingBaseUrl h.ctaPath }

/-! ## Helper lemmas -/

theorem requireEnv_ok (lookup : String → Option String) (name : String)
    (h : truthy (lookup name)) :
    ∃ v, lookup name = some v ∧ v ≠ "" ∧ requireEnv lookup name = .ok v := by
  unfold truthy at h
  cases hv : lookup name with
  | none => rw [hv] at h; simp at h
  | some v =>
    rw [hv] at h
    simp only [decide_eq_true_eq] at h
    exact ⟨v, rfl, h, by simp [requireEnv, hv, h]⟩

theorem requireEnv_err (lookup : String → Option String) (name : String)
    (h : ¬ truthy (lookup name)) :
    requireEnv lookup name = .error ("Missing required env var: " ++ name) := by
  unfold truthy at h
  cases hv : lookup name with
  | none => simp [requireEnv, hv]
  | some v =>
    rw [hv] at h
    simp only [Bool.not_eq_true, decide_eq_false_iff_not, not_not] at h
    simp [requireEnv, hv, h]

theorem mkEnv_ok_of_truthy (lookup : String → Option String)
    (h : ∀ k ∈ requiredKeys, truthy (lookup k)) :
    ∃ e, mkEnv lookup = .ok e := by
  obtain ⟨v1, _, _, h1⟩ := requireEnv_ok lookup "VITE_ITWIN_CLIENT_ID"
    (h _ (by simp [requiredKeys]))
  obtain ⟨v2, _, _, h2⟩ := requireEnv_ok lookup "VITE_ITWIN_REDIRECT_URI"
    (h _ (by simp [requiredKeys]))
  obtain ⟨v3, _, _, h3⟩ := requireEnv_ok lookup "VITE_ITWIN_POST_SIGNOUT_REDIRECT_URI"
    (h _ (by simp [requiredKeys]))
  unfold mkEnv
  rw [h1, h2, h3]
  exact ⟨_, rfl⟩

theorem mkEnv_ok_spec (lookup : String → Option String)
    (h : ∀ k ∈ requiredKeys, truthy (lookup k)) :
    ∃ v1 v2 v3, lookup "VITE_ITWIN_CLIENT_ID" = some v1
      ∧ lookup "VITE_ITWIN_REDIRECT_URI" = some v2
      ∧ lookup "VITE_ITWIN_POST_SIGNOUT_REDIRECT_URI" = some v3
      ∧ mkEnv lookup = .ok (AppEnv.mk v1 v2 v3
          ((lookup "VITE_ITWIN_SCOPE").getD "itwin-platform")
          ((lookup "VITE_ITWIN_AUTHORITY").getD "https://ims.bentley.com")
          (lookup "VITE_DEMO_ITWIN_ID")
          (lookup "VITE_DEMO_IMODEL_ID")
          ((lookup "VITE_MARKETING_BASE_URL").getD "/")) := by
  obtain ⟨v1, hl1, _, h1⟩ := requireEnv_ok lookup "VITE_ITWIN_CLIENT_ID"
    (h _ (by simp [requiredKeys]))
  obtain ⟨v2, hl2, _, h2⟩ := requireEnv_ok lookup "VITE_ITWIN_REDIRECT_URI"
    (h _ (by simp [requiredKeys]))
  obtain ⟨v3, hl3, _, h3⟩ := requireEnv_ok lookup "VITE_ITWIN_POST_SIGNOUT_REDIRECT_URI"
    (h _ (by simp [requiredKeys]))
  refine ⟨v1, v2, v3, hl1, hl2, hl3, ?_⟩
  unfold mkEnv
  rw [h1, h2, h3]
  rfl

theorem mkEnv_err1 (lookup : String → Option String)
    (h : ¬ truthy (lookup "VITE_ITWIN_CLIENT_ID")) :
    mkEnv lookup = .error ("Missing required env var: " ++ "VITE_ITWIN_CLIENT_ID") := by
  unfold mkEnv
  rw [requireEnv_err lookup _ h]
  rfl

theorem mkEnv_err2 (lookup : String → Option String)
    (h1 : truthy (lookup "VITE_ITWIN_CLIENT_ID"))
    (h : ¬ truthy (lookup "VITE_ITWIN_REDIRECT_URI")) :
    mkEnv lookup = .error ("Missing required env var: " ++ "VITE_ITWIN_REDIRECT_URI") := by
  obtain ⟨v1, _, _, hok1⟩ := requireEnv_ok lookup "VITE_ITWIN_CLIENT_ID" h1
  unfold mkEnv
  rw [hok1, requireEnv_err lookup _ h]
  rfl

theorem mkEnv_err3 (lookup : String → Option String)
    (h1 : truthy (lookup "VITE_ITWIN_CLIENT_ID"))
    (h2 : truthy (lookup "VITE_ITWIN_REDIRECT_URI"))
    (h : ¬ truthy (lookup "VITE_ITWIN_POST_SIGNOUT_REDIRECT_URI")) :
    mkEnv lookup
      = .error ("Missing required env var: " ++ "VITE_ITWIN_POST_SIGNOUT_REDIRECT_URI") := by
  obtain ⟨v1, _, _, hok1⟩ := requireEnv_ok lookup "VITE_ITWIN_CLIENT_ID" h1
  obtain ⟨v2, _, _, hok2⟩ := requireEnv_ok lookup "VITE_ITWIN_REDIRECT_URI" h2
  unfold mkEnv
  rw [hok1, hok2, requireEnv_err lookup _ h]
  rfl

theorem mkEnv_fails_of_not_truthy (lookup : String → Option String)
    (k : String) (hk : k ∈ requiredKeys) (h : ¬ truthy (lookup k)) :
    (mkEnv lookup).isOk = false := by
  simp only [requiredKeys, List.mem_cons, List.not_mem_nil, or_false] at hk
  rcases hk with rfl | rfl | rfl
  · rw [mkEnv_err1 lookup h]; rfl
  · by_cases h1 : truthy (lookup "VITE_ITWIN_CLIENT_ID")
    · rw [mkEnv_err2 lookup h1 h]; rfl
    · rw [mkEnv_err1 lookup h1]; rfl
  · by_cases h1 : truthy (lookup "VITE_ITWIN_CLIENT_ID")
    · by_cases h2 : truthy (lookup "VITE_ITWIN_REDIRECT_URI")
      · rw [mkEnv_err3 lookup h1 h2 h]; rfl
      · rw [mkEnv_err2 lookup h1 h2]; rfl
    · rw [mkEnv_err1 lookup h1]; rfl

theorem mkEnv_names_sole_bad_key (lookup : String → Option String)
    (k : String) (hk : k ∈ requiredKeys) (h : ¬ truthy (lookup k))
    (hothers : ∀ k' ∈ requiredKeys, k' ≠ k → truthy (lookup k')) :
    mkEnv lookup = .error ("Missing required env var: " ++ k) := by
  simp only [requiredKeys, List.mem_cons, List.not_mem_nil, or_false] at hk
  rcases hk with rfl | rfl | rfl
  · exact mkEnv_err1 lookup h
  · exact mkEnv_err2 lookup
      (hothers _ (by simp [requiredKeys]) (by decide)) h
  · exact mkEnv_err3 lookup
      (hothers _ (by simp [requiredKeys]) (by decide))
      (hothers _ (by simp [requiredKeys]) (by decide)) h

theorem mkEnv_err_first (lookup : String → Option String)
    (hbad : ∃ k ∈ requiredKeys, ¬ truthy (lookup k)) :
    ∃ kf, requiredKeys.find? (fun k0 => !truthy (lookup k0)) = some kf
      ∧ mkEnv lookup = .error ("Missing required env var: " ++ kf) := by
  by_cases h1 : truthy (lookup "VITE_ITWIN_CLIENT_ID")
  · by_cases h2 : truthy (lookup "VITE_ITWIN_REDIRECT_URI")
    · by_cases h3 : truthy (lookup "VITE_ITWIN_POST_SIGNOUT_REDIRECT_URI")
      · exfalso
        obtain ⟨k, hk, hbadk⟩ := hbad
        simp only [requiredKeys, List.mem_cons, List.not_mem_nil, or_false] at hk
        rcases hk with rfl | rfl | rfl
        · exact hbadk h1
        · exact hbadk h2
        · exact hbadk h3
      · refine ⟨_, ?_, mkEnv_err3 lookup h1 h2 h3⟩
        unfold requiredKeys
        rw [List.find?_cons_of_neg _ (by simp [h1]), List.find?_cons_of_neg _ (by simp [h2]),
          List.find?_cons_of_pos _ (by simpa using h3)]
    · refine ⟨_, ?_, mkEnv_err2 lookup h1 h2⟩
      unfold requiredKeys
      rw [List.find?_cons_of_neg _ (by simp [h1]),
        List.find?_cons_of_pos _ (by simpa using h2)]
  · refine ⟨_, ?_, mkEnv_err1 lookup h1⟩
    unfold requiredKeys
    rw [List.find?_cons_of_pos _ (by simpa using h1)]

theorem replaceAllChar_append (c : Char) (r a b : List Char) :
    replaceAllChar c r (a ++ b) = replaceAllChar c r a ++ replaceAllChar c r b := by
  induction a with
  | nil => rfl
  | cons x xs ih => simp [replaceAllChar, ih]

theorem escapeHtml_cons (x : Char) (xs : List Char) :
    escapeHtml (x :: xs) = escChar x ++ escapeHtml xs := by
  unfold escapeHtml
  rw [show replaceAllChar '&' "&amp;".data (x :: xs)
      = (if x = '&' then "&amp;".data else [x]) ++ replaceAllChar '&' "&amp;".data xs from rfl]
  rw [replaceAllChar_append, replaceAllChar_append]
  congr 1
  by_cases h1 : x = '&'
  · subst h1; decide
  · rw [if_neg h1]
    by_cases h2 : x = '<'
    · subst h2; decide
    · by_cases h3 : x = '>'
      · subst h3; decide
      · simp [replaceAllChar, escChar, h1, h2, h3]

theorem escapeHtml_eq_escAll (l : List Char) : escapeHtml l = escAll l := by
  induction l with
  | nil => rfl
  | cons x xs ih => rw [escapeHtml_cons, ih]; rfl

theorem escChar_no_raw (x : Char) : '<' ∉ escChar x ∧ '>' ∉ escChar x := by
  unfold escChar
  split_ifs with h1 h2 h3
  · decide
  · decide
  · decide
  · refine ⟨fun hmem => ?_, fun hmem => ?_⟩
    · rw [List.mem_singleton] at hmem; exact h2 hmem.symm
    · rw [List.mem_singleton] at hmem; exact h3 hmem.symm

theorem escAll_no_raw (l : List Char) : '<' ∉ escAll l ∧ '>' ∉ escAll l := by
  induction l with
  | nil => exact ⟨List.not_mem_nil _, List.not_mem_nil _⟩
  | cons x xs ih =>
    have hx := escChar_no_raw x
    refine ⟨fun h => ?_, fun h => ?_⟩
    · rcases List.mem_append.1 h with h | h
      · exact hx.1 h
      · exact ih.1 h
    · rcases List.mem_append.1 h with h | h
      · exact hx.2 h
      · exact ih.2 h

theorem htmlTextContent_cons_plain (c : Char) (t : List Char) (h1 : c ≠ '<') (h2 : c ≠ '&') :
    htmlTextContent (c :: t) = c :: htmlTextContent t := by
  rw [htmlTextContent.eq_def]
  simp only [if_neg h1, if_neg h2]

theorem htmlTextContent_append_plain (l t : List Char)
    (h : ∀ c ∈ l, c ≠ '<' ∧ c ≠ '&') :
    htmlTextContent (l ++ t) = l ++ htmlTextContent t := by
  induction l with
  | nil => rfl
  | cons x xs ih =>
    have hx := h x (List.mem_cons_self _ _)
    rw [List.cons_append, htmlTextContent_cons_plain x _ hx.1 hx.2,
      ih (fun c hc => h c (List.mem_cons_of_mem _ hc))]
    rfl

theorem htmlTextContent_tag (inner rest : List Char) (hin : ∀ c ∈ inner, c ≠ '>') :
    htmlTextContent ('<' :: (inner ++ '>' :: rest)) = htmlTextContent rest := by
  have hdrop : ((inner ++ '>' :: rest).dropWhile (fun x => x ≠ '>')).tail = rest := by
    induction inner with
    | nil =>
      rw [List.nil_append, List.dropWhile_cons_of_neg (by simp)]
      rfl
    | cons y ys ih =>
      have hy : y ≠ '>' := hin y (List.mem_cons_self _ _)
      rw [List.cons_append, List.dropWhile_cons_of_pos (by simpa using hy)]
      exact ih (fun c hc => hin c (List.mem_cons_of_mem _ hc))
  rw [htmlTextContent.eq_def]
  simp only [if_pos rfl]
  rw [hdrop]
  simp

theorem htmlTextContent_escAll (l : List Char) : htmlTextContent (escAll l) = l := by
  induction l with
  | nil =>
    show htmlTextContent [] = []
    rw [htmlTextContent.eq_def]
  | cons x xs ih =>
    by_cases h1 : x = '&'
    · subst h1
      show htmlTextContent ('&' :: 'a' :: 'm' :: 'p' :: ';' :: escAll xs) = '&' :: xs
      rw [htmlTextContent.eq_def]
      simp only [if_neg (by decide : ¬ ('&' : Char) = '<'), if_pos rfl]
      simp [ih]
    · by_cases h2 : x = '<'
      · subst h2
        show htmlTextContent ('&' :: 'l' :: 't' :: ';' :: escAll xs) = '<' :: xs
        rw [htmlTextContent.eq_def]
        simp only [if_neg (by decide : ¬ ('&' : Char) = '<'), if_pos rfl]
        simp [ih]
      · by_cases h3 : x = '>'
        · subst h3
          show htmlTextContent ('&' :: 'g' :: 't' :: ';' :: escAll xs) = '>' :: xs
          rw [htmlTextContent.eq_def]
          simp only [if_neg (by decide : ¬ ('&' : Char) = '<'), if_pos rfl]
          simp [ih]
        · show htmlTextContent (escChar x ++ escAll xs) = x :: xs
          rw [show escChar x = [x] by simp [escChar, h1, h2, h3]]
          rw [List.singleton_append, htmlTextContent_cons_plain x _ h2 h1, ih]

/-- The browser-visible text of an appended chat `<p>`: for senders free of
markup characters (as `"You"` and `"AI"` are), the text content of the
`innerHTML` that `appendMessage` builds is exactly `displayedText`. -/
theorem htmlTextContent_messageHtml (m : ChatMessage)
    (hs : ∀ c ∈ m.sender.data, c ≠ '<' ∧ c ≠ '&') :
    htmlTextContent (messageHtml m).data = (displayedText m).data := by
  have h1 : (messageHtml m).data
      = '<' :: ('b' :: '>' :: (m.sender.data
          ++ (':' :: '<' :: ('/' :: 'b' :: '>' :: (' ' :: escapeHtml m.text.data))))) := by
    show ("<b>" ++ m.sender ++ ":</b> " ++ escapeHtmlS m.text).data = _
    simp only [String.data_append]
    show ['<', 'b', '>'] ++ m.sender.data ++ [':', '<', '/', 'b', '>', ' ']
        ++ escapeHtml m.text.data = _
    simp
  rw [h1]
  rw [show ('b' :: '>' :: (m.sender.data
        ++ (':' :: '<' :: ('/' :: 'b' :: '>' :: (' ' :: escapeHtml m.text.data)))))
      = ['b'] ++ '>' :: (m.sender.data
        ++ (':' :: '<' :: ('/' :: 'b' :: '>' :: (' ' :: escapeHtml m.text.data)))) from rfl]
  rw [htmlTextContent_tag ['b'] _ (by decide)]
  rw [htmlTextContent_append_plain _ _ hs]
  rw [htmlTextContent_cons_plain ':' _ (by decide) (by decide)]
  rw [show ('/' :: 'b' :: '>' :: (' ' :: escapeHtml m.text.data))
      = ['/', 'b'] ++ '>' :: (' ' :: escapeHtml m.text.data) from rfl]
  rw [htmlTextContent_tag ['/', 'b'] _ (by decide)]
  rw [htmlTextContent_cons_plain ' ' _ (by decide) (by decide)]
  rw [escapeHtml_eq_escAll, htmlTextContent_escAll]
  show _ = (m.sender ++ ": " ++ m.text).data
  simp only [String.data_append]
  show _ = m.sender.data ++ [':', ' '] ++ m.text.data
  simp

theorem dropTrailingSlashes_decomp (l : List Char) :
    ∃ n, l = dropTrailingSlashes l ++ List.replicate n '/' := by
  refine ⟨(l.reverse.takeWhile (fun c => c = '/')).length, ?_⟩
  conv_lhs => rw [← l.reverse_reverse,
    ← List.takeWhile_append_dropWhile (p := fun c => c = '/') (l := l.reverse)]
  rw [List.reverse_append]
  unfold dropTrailingSlashes
  congr 1
  have hrep := List.eq_replicate_of_mem (a := '/')
    (l := l.reverse.takeWhile (fun c => c = '/'))
    (fun b hb => by simpa using List.mem_takeWhile_imp hb)
  rw [hrep, List.reverse_replicate, List.length_replicate]

theorem dropTrailingSlashes_no_trailing (l : List Char) :
    (dropTrailingSlashes l).getLast? ≠ some '/' := by
  intro hlast
  unfold dropTrailingSlashes at hlast
  rw [List.getLast?_reverse] at hlast
  have h := List.head?_dropWhile_not (fun c => c = '/') l.reverse
  rw [hlast] at h
  simp at h

/-! ## Claim theorems -/

/-- C2: every rejection of `handleSigninCallback` with message `m` leaves the
callback page displaying exactly `"Sign-in failed: " ++ m` and triggers no
navigation; in particular a rejection with message `"bad state"` displays
exactly `"Sign-in failed: bad state"`. -/
theorem signin_callback_failure_shows_message (e : JsError) :
    (runSigninCallback (.error e) initialCallbackState).msg = "Sign-in failed: " ++ e.message
    ∧ (runSigninCallback (.error e) initialCallbackState).navigated = none
    ∧ (runSigninCallback (.error (JsError.mk "bad state")) initialCallbackState).msg
        = "Sign-in failed: bad state" :=
  ⟨rfl, rfl, by decide⟩

/-- C3: a successful resolution of `handleSigninCallback` navigates the
callback page to `/app/viewer`, and the displayed text stays the initial
"Signing you in…" message and is never a "Sign-in failed:" message. -/
theorem signin_callback_success_navigates :
    (runSigninCallback (.ok ()) initialCallbackState).navigated = some "/app/viewer"
    ∧ (runSigninCallback (.ok ()) initialCallbackState).msg = "Signing you in…"
    ∧ ∀ r : String,
        (runSigninCallback (.ok ()) initialCallbackState).msg ≠ "Sign-in failed: " ++ r := by
  refine ⟨rfl, rfl, fun r h => ?_⟩
  have h4 : ("Signing you in…".data)[4]? = ("Sign-in failed: " ++ r).data[4]? := by rw [← h]; rfl
  rw [String.data_append, List.getElem?_append] at h4
  rw [if_pos (by decide)] at h4
  exact absurd h4 (by decide)

/-- C4: sending the chat input "hello" when the fetch resolves with body
`\x7breply:"hi"\x7d` appends exactly two messages, in order: a user message
displaying "You: hello" and then an assistant message displaying "AI: hi". -/
theorem chat_send_hello_success (box : List ChatMessage) (d : Bool) (lab : String) (n : Nat) :
    (sendMessage (.success "hi") (ChatState.mk "hello" box d lab n)).chatbox
      = box ++ [ChatMessage.mk "You" "hello" "user", ChatMessage.mk "AI" "hi" "ai"]
    ∧ displayedText (ChatMessage.mk "You" "hello" "user") = "You: hello"
    ∧ displayedText (ChatMessage.mk "AI" "hi" "ai") = "AI: hi" := by
  refine ⟨?_, by decide, by decide⟩
  simp [sendMessage, appendMessage, show jsTrim "hello" = "hello" from by decide]

/-- C5: whenever the fetch (or the JSON parse) rejects, the assistant message
appended is exactly the fixed fallback text, and afterwards the send button is
enabled with label "Send". -/
theorem chat_send_rejected_fallback (s : ChatState) (h : jsTrim s.inputValue ≠ "") :
    (sendMessage .rejected s).chatbox
      = s.chatbox ++ [ChatMessage.mk "You" (jsTrim s.inputValue) "user",
          ChatMessage.mk "AI" fallbackReply "ai"]
    ∧ fallbackReply = "Sorry, something went wrong while contacting the assistant."
    ∧ (sendMessage .rejected s).sendDisabled = false
    ∧ (sendMessage .rejected s).sendLabel = "Send" := by
  refine ⟨?_, rfl, ?_, ?_⟩ <;> simp [sendMessage, appendMessage, h]

/-- C5 witness: the fallback behaviour at the concrete input "hello". -/
theorem chat_send_rejected_fallback_witness :
    jsTrim "hello" ≠ ""
    ∧ (sendMessage .rejected (ChatState.mk "hello" [] false "Send" 0)).chatbox
        = [] ++ [ChatMessage.mk "You" (jsTrim "hello") "user",
            ChatMessage.mk "AI" fallbackReply "ai"]
    ∧ (sendMessage .rejected (ChatState.mk "hello" [] false "Send" 0)).sendDisabled = false
    ∧ (sendMessage .rejected (ChatState.mk "hello" [] false "Send" 0)).sendLabel = "Send" := by
  have h := chat_send_rejected_fallback (ChatState.mk "hello" [] false "Send" 0) (by decide)
  exact ⟨by decide, h.1, h.2.2.1, h.2.2.2⟩

/-- C10: a send with blank (empty or whitespace-only) trimmed input is a
no-op: the whole observable state, including the chatbox, the input value, the
fetch count and the button state, is unchanged. -/
theorem chat_send_blank_noop (outcome : FetchOutcome) (s : ChatState)
    (h : jsTrim s.inputValue = "") : sendMessage outcome s = s := by
  simp [sendMessage, h]

/-- C10 witness: the no-op at a whitespace-only input. -/
theorem chat_send_blank_noop_witness :
    jsTrim "   " = ""
    ∧ sendMessage .rejected (ChatState.mk "   " [] false "Send" 0)
        = ChatState.mk "   " [] false "Send" 0 :=
  ⟨by decide, chat_send_blank_noop .rejected (ChatState.mk "   " [] false "Send" 0) (by decide)⟩

/-- C6: `escapeHtml` replaces every `&` by `&amp;`, `<` by `&lt;` and `>` by
`&gt;` (single-pass characterisation `escAll`, valid because ampersands are
replaced first); `"<script>"` escapes to `"&lt;script&gt;"`; the output never
contains a raw `<` or `>`; and the rendered text content of the escaped output
is the original string. -/
theorem escapeHtml_replaces_all :
    (∀ s : String, escapeHtmlS s = String.mk (escAll s.data))
    ∧ escapeHtmlS "<script>" = "&lt;script&gt;"
    ∧ (∀ s : String, '<' ∉ (escapeHtmlS s).data ∧ '>' ∉ (escapeHtmlS s).data)
    ∧ (∀ s : String, htmlTextContent (escapeHtmlS s).data = s.data) := by
  refine ⟨fun s => congrArg String.mk (escapeHtml_eq_escAll s.data), by decide,
    fun s => ?_, fun s => ?_⟩
  · show '<' ∉ escapeHtml s.data ∧ '>' ∉ escapeHtml s.data
    rw [escapeHtml_eq_escAll]
    exact escAll_no_raw s.data
  · show htmlTextContent (escapeHtml s.data) = s.data
    rw [escapeHtml_eq_escAll]
    exact htmlTextContent_escAll s.data

/-- C7: clicking the second hotspot (showroom) makes the details panel show
that hotspot's title, description and CTA, with link `href` equal to the
marketing base URL with all trailing slashes stripped concatenated with the
hotspot's `ctaPath`. -/
theorem viewer_click_showroom (base : String) (s : ViewerState) :
    DEFAULT_HOTSPOTS.get? 1 = some showroomHotspot
    ∧ renderDetails base (clickHotspot showroomHotspot s)
        = some (ViewerDetails.mk showroomHotspot.title showroomHotspot.description
            showroomHotspot.ctaLabel (stripTrailingSlashesS base ++ showroomHotspot.ctaPath))
    ∧ (∃ n, base.data = (stripTrailingSlashesS base).data ++ List.replicate n '/')
    ∧ (stripTrailingSlashesS base).data.getLast? ≠ some '/' := by
  exact ⟨by decide, rfl, dropTrailingSlashes_decomp base.data,
    dropTrailingSlashes_no_trailing base.data⟩

/-- C1 counterexample: both clauses of the claim fail at concrete
environments. With the client ID set to the empty string every required key
is present and yet construction fails, refuting "if all required keys are
present, construction succeeds"; and with the client ID and the redirect URI
both unset, the redirect URI is absent yet the thrown error names the client
ID, not the redirect URI, refuting "throws an error whose message names that
missing key". -/
theorem env_all_present_can_still_fail :
    ((∀ k ∈ requiredKeys, (lookupEmptyClient k).isSome = true)
      ∧ mkEnv lookupEmptyClient
          = .error ("Missing required env var: " ++ "VITE_ITWIN_CLIENT_ID"))
    ∧ (lookupMissingTwo "VITE_ITWIN_REDIRECT_URI" = none
      ∧ "VITE_ITWIN_REDIRECT_URI" ∈ requiredKeys
      ∧ mkEnv lookupMissingTwo
          = .error ("Missing required env var: " ++ "VITE_ITWIN_CLIENT_ID")
      ∧ ("Missing required env var: " ++ "VITE_ITWIN_CLIENT_ID" : String)
          ≠ "Missing required env var: " ++ "VITE_ITWIN_REDIRECT_URI") :=
  ⟨⟨by decide, rfl⟩, rfl, by decide, rfl, by decide⟩

/-- C1 (amended): if all required keys are set to non-empty values,
construction succeeds; if a required key is unset, construction fails, and
the thrown error is `Missing required env var: <kf>` where `kf` is the first
required key in read order whose value is absent or empty — so it is that key
itself whenever it is the only required key not set non-empty. -/
theorem env_required_key_check (lookup : String → Option String) :
    ((∀ k ∈ requiredKeys, truthy (lookup k)) → (mkEnv lookup).isOk = true)
    ∧ (∀ k ∈ requiredKeys, lookup k = none →
        ∃ kf, requiredKeys.find? (fun k0 => !truthy (lookup k0)) = some kf
          ∧ mkEnv lookup = .error ("Missing required env var: " ++ kf)
          ∧ ((∀ k0 ∈ requiredKeys, k0 ≠ k → truthy (lookup k0)) → kf = k)) := by
  refine ⟨fun h => ?_, fun k hk hnone => ?_⟩
  · obtain ⟨e, he⟩ := mkEnv_ok_of_truthy lookup h
    rw [he]
    rfl
  · obtain ⟨kf, hfind, herr⟩ :=
      mkEnv_err_first lookup ⟨k, hk, by simp [hnone, truthy]⟩
    refine ⟨kf, hfind, herr, fun hothers => ?_⟩
    have hpred := List.find?_some hfind
    have hmem := List.mem_of_find?_eq_some hfind
    by_contra hne
    have htr := hothers kf hmem hne
    rw [htr] at hpred
    exact absurd hpred (by decide)

/-- C1 witness: at concrete environments — all three required keys set
non-empty succeeds; only the redirect URI unset fails, the first failing key
is the redirect URI, and the error names it. -/
theorem env_required_key_check_witness :
    (mkEnv lookupRequiredOnly).isOk = true
    ∧ ∃ kf, requiredKeys.find? (fun k0 => !truthy (lookupMissingRedirect k0)) = some kf
        ∧ mkEnv lookupMissingRedirect = .error ("Missing required env var: " ++ kf)
        ∧ ((∀ k0 ∈ requiredKeys, k0 ≠ "VITE_ITWIN_REDIRECT_URI"
              → truthy (lookupMissingRedirect k0))
            → kf = "VITE_ITWIN_REDIRECT_URI") :=
  ⟨(env_required_key_check lookupRequiredOnly).1 (by decide),
   (env_required_key_check lookupMissingRedirect).2 "VITE_ITWIN_REDIRECT_URI"
     (by decide) (by decide)⟩

/-- C8: when the optional scope/authority variables are unset the constructed
configuration uses the defaults `"itwin-platform"` and
`"https://ims.bentley.com"`; when they are set, the set values are used
unchanged. -/
theorem env_optional_defaults (lookup : String → Option String)
    (h : ∀ k ∈ requiredKeys, truthy (lookup k)) :
    ∃ e, mkEnv lookup = .ok e
      ∧ (lookup "VITE_ITWIN_SCOPE" = none → e.scope = "itwin-platform")
      ∧ (∀ v, lookup "VITE_ITWIN_SCOPE" = some v → e.scope = v)
      ∧ (lookup "VITE_ITWIN_AUTHORITY" = none → e.authority = "https://ims.bentley.com")
      ∧ (∀ v, lookup "VITE_ITWIN_AUTHORITY" = some v → e.authority = v) := by
  obtain ⟨v1, v2, v3, _, _, _, hok⟩ := mkEnv_ok_spec lookup h
  refine ⟨_, hok, ?_, ?_, ?_, ?_⟩
  · intro hnone
    show (lookup "VITE_ITWIN_SCOPE").getD "itwin-platform" = _
    rw [hnone]
    rfl
  · intro v hv
    show (lookup "VITE_ITWIN_SCOPE").getD "itwin-platform" = v
    rw [hv]
    rfl
  · intro hnone
    show (lookup "VITE_ITWIN_AUTHORITY").getD "https://ims.bentley.com" = _
    rw [hnone]
    rfl
  · intro v hv
    show (lookup "VITE_ITWIN_AUTHORITY").getD "https://ims.bentley.com" = v
    rw [hv]
    rfl

/-- C8 witness: the defaults at an environment with only the required keys,
and the pass-through at an environment that also sets scope and authority. -/
theorem env_optional_defaults_witness :
    (∃ e, mkEnv lookupRequiredOnly = Except.ok e
      ∧ (lookupRequiredOnly "VITE_ITWIN_SCOPE" = none → e.scope = "itwin-platform")
      ∧ (∀ v, lookupRequiredOnly "VITE_ITWIN_SCOPE" = some v → e.scope = v)
      ∧ (lookupRequiredOnly "VITE_ITWIN_AUTHORITY" = none
          → e.authority = "https://ims.bentley.com")
      ∧ (∀ v, lookupRequiredOnly "VITE_ITWIN_AUTHORITY" = some v → e.authority = v))
    ∧ (∃ e, mkEnv lookupFull = Except.ok e
      ∧ (lookupFull "VITE_ITWIN_SCOPE" = none → e.scope = "itwin-platform")
      ∧ (∀ v, lookupFull "VITE_ITWIN_SCOPE" = some v → e.scope = v)
      ∧ (lookupFull "VITE_ITWIN_AUTHORITY" = none → e.authority = "https://ims.bentley.com")
      ∧ (∀ v, lookupFull "VITE_ITWIN_AUTHORITY" = some v → e.authority = v)) :=
  ⟨env_optional_defaults lookupRequiredOnly (by decide),
   env_optional_defaults lookupFull (by decide)⟩

/-- C9 counterexample: with the client ID and the redirect URI both set to the
empty string, the redirect URI has an empty-string value yet the thrown error
names only the client ID — refuting "for every required key whose environment
value is the empty string, construction throws the error naming that key". -/
theorem env_empty_string_second_not_named :
    lookupTwoEmpty "VITE_ITWIN_REDIRECT_URI" = some ""
    ∧ "VITE_ITWIN_REDIRECT_URI" ∈ requiredKeys
    ∧ mkEnv lookupTwoEmpty = .error ("Missing required env var: " ++ "VITE_ITWIN_CLIENT_ID")
    ∧ ("Missing required env var: " ++ "VITE_ITWIN_CLIENT_ID" : String)
        ≠ "Missing required env var: " ++ "VITE_ITWIN_REDIRECT_URI" :=
  ⟨rfl, by decide, rfl, by decide⟩

/-- C9 (amended): the required-env check treats an empty-string value the same
as an absent one. A required key set to the empty string is set (`isSome`),
yet its own check throws `Missing required env var` naming that key,
construction fails, and the constructed error names that key whenever it is
the first required key in read order whose value is empty or absent. -/
theorem env_empty_string_required (lookup : String → Option String) (k : String)
    (hk : k ∈ requiredKeys) (hempty : lookup k = some "") :
    (lookup k).isSome = true
    ∧ requireEnv lookup k = .error ("Missing required env var: " ++ k)
    ∧ (mkEnv lookup).isOk = false
    ∧ (requiredKeys.find? (fun k0 => !truthy (lookup k0)) = some k →
        mkEnv lookup = .error ("Missing required env var: " ++ k)) := by
  refine ⟨by rw [hempty]; rfl, by simp [requireEnv, hempty],
    mkEnv_fails_of_not_truthy lookup k hk (by simp [hempty, truthy]), fun hfirst => ?_⟩
  obtain ⟨kf, hfind, herr⟩ :=
    mkEnv_err_first lookup ⟨k, hk, by simp [hempty, truthy]⟩
  rw [hfind] at hfirst
  rw [herr, Option.some_inj.mp hfirst]

/-- C9 witness: the empty-string client ID environment, where the client ID is
the first failing key. -/
theorem env_empty_string_required_witness :
    (lookupEmptyClient "VITE_ITWIN_CLIENT_ID").isSome = true
    ∧ requireEnv lookupEmptyClient "VITE_ITWIN_CLIENT_ID"
        = .error ("Missing required env var: " ++ "VITE_ITWIN_CLIENT_ID")
    ∧ (mkEnv lookupEmptyClient).isOk = false
    ∧ mkEnv lookupEmptyClient
        = .error ("Missing required env var: " ++ "VITE_ITWIN_CLIENT_ID") := by
  have h := env_empty_string_required lookupEmptyClient "VITE_ITWIN_CLIENT_ID"
    (by decide) (by decide)
  exact ⟨h.1, h.2.1, h.2.2.1, h.2.2.2 (by decide)⟩

/-- C2 witness: the rejection with message "bad state". -/
theorem signin_callback_failure_witness :
    (runSigninCallback (.error (JsError.mk "bad state")) initialCallbackState).msg
      = "Sign-in failed: " ++ (JsError.mk "bad state").message
    ∧ (runSigninCallback (.error (JsError.mk "bad state")) initialCallbackState).navigated
      = none
    ∧ (runSigninCallback (.error (JsError.mk "bad state")) initialCallbackState).msg
      = "Sign-in failed: bad state" :=
  signin_callback_failure_shows_message (JsError.mk "bad state")

/-- C3 witness: the success outcome, checked against one candidate error
text. -/
theorem signin_callback_success_witness :
    (runSigninCallback (.ok ()) initialCallbackState).navigated = some "/app/viewer"
    ∧ (runSigninCallback (.ok ()) initialCallbackState).msg ≠ "Sign-in failed: " ++ "boom" :=
  ⟨signin_callback_success_navigates.1, signin_callback_success_navigates.2.2 "boom"⟩

/-- C4 witness: the "hello"/"hi" exchange from an empty chatbox. -/
theorem chat_send_hello_success_witness :
    (sendMessage (.success "hi") (ChatState.mk "hello" [] false "Send" 0)).chatbox
      = [] ++ [ChatMessage.mk "You" "hello" "user", ChatMessage.mk "AI" "hi" "ai"]
    ∧ displayedText (ChatMessage.mk "You" "hello" "user") = "You: hello"
    ∧ displayedText (ChatMessage.mk "AI" "hi" "ai") = "AI: hi" :=
  chat_send_hello_success [] false "Send" 0

/-- C6 witness: the escaping characterisation evaluated at "<script>" and at
a string with all three special characters. -/
theorem escapeHtml_replaces_all_witness :
    escapeHtmlS "<script>" = String.mk (escAll "<script>".data)
    ∧ escapeHtmlS "<script>" = "&lt;script&gt;"
    ∧ ('<' ∉ (escapeHtmlS "a&b<c>d").data ∧ '>' ∉ (escapeHtmlS "a&b<c>d").data)
    ∧ htmlTextContent (escapeHtmlS "a&b<c>d").data = "a&b<c>d".data :=
  ⟨escapeHtml_replaces_all.1 "<script>", escapeHtml_replaces_all.2.1,
   escapeHtml_replaces_all.2.2.1 "a&b<c>d", escapeHtml_replaces_all.2.2.2 "a&b<c>d"⟩

/-- C7 witness: the showroom click with marketing base "https://marketing.example//". -/
theorem viewer_click_showroom_witness :
    DEFAULT_HOTSPOTS.get? 1 = some showroomHotspot
    ∧ renderDetails "https://marketing.example//"
        (clickHotspot showroomHotspot initialViewerState)
        = some (ViewerDetails.mk showroomHotspot.title showroomHotspot.description
            showroomHotspot.ctaLabel
            (stripTrailingSlashesS "https://marketing.example//" ++ showroomHotspot.ctaPath))
    ∧ (∃ n, "https://marketing.example//".data
        = (stripTrailingSlashesS "https://marketing.example//").data ++ List.replicate n '/')
    ∧ (stripTrailingSlashesS "https://marketing.example//").data.getLast? ≠ some '/' :=
  viewer_click_showroom "https://marketing.example//" initialViewerState

end GemAssist
